import Mathlib

/-!
Shallow embedding of the order/payment lifecycle of the Dogs-Website
repository (route handlers in `routes/payment.js`, schema in
`database/init.js`).

Rows are Lean structures whose fields carry the column names of the
SQLite schema; the store is the list of rows per table.  `DECIMAL(10,2)`
price/amount columns are modelled as `Int` (the seed data and all
arithmetic in the handlers are integral); `stock_quantity` is `Int`
because the schema has no constraint keeping it non-negative.  Each
route handler becomes a function from the store (plus the
externally-generated values: authenticated user id, order number,
Stripe intent) to a response paired with the new store; the individual
SQL statements it issues are separate primitive updates, and a `…Trace`
function lists the store after each statement, since each `db.run` is
its own implicit SQLite transaction and the code opens no explicit
transaction around them.
-/

namespace PetNation

/-- Row of `pets` (columns used by the payment flow). -/
structure Pet where
  id : Nat
  name : String
  price : Int
  is_available : Bool
deriving DecidableEq, Repr

/-- Row of `shop_products` (columns used by the payment flow). -/
structure Product where
  id : Nat
  name : String
  price : Int
  stock_quantity : Int
  is_available : Bool
deriving DecidableEq, Repr

/-- Row of `orders`. -/
structure Order where
  id : Nat
  user_id : Nat
  order_number : String
  total_amount : Int
  status : String
  payment_status : String
  shipping_address : String
  billing_address : String
  notes : String
deriving DecidableEq, Repr

/-- Row of `order_items`. -/
structure OrderItem where
  order_id : Nat
  item_type : String
  item_id : Nat
  quantity : Nat
  price : Int
deriving DecidableEq, Repr

/-- Row of `payments`. -/
structure Payment where
  order_id : Nat
  stripe_payment_intent_id : String
  amount : Int
  status : String
  payment_method : String
  transaction_id : String
deriving DecidableEq, Repr

/-- The persistent store: one list of rows per table touched by the flow. -/
structure Store where
  pets : List Pet
  products : List Product
  orders : List Order
  order_items : List OrderItem
  payments : List Payment
deriving DecidableEq, Repr

/-- Cart item as sent by the client: `{type, id, quantity}`.  The
`client_price` field stands for any price field a client may attach to
the JSON item; the handler destructures only `type`, `id`, `quantity`,
so no definition below reads it. -/
inductive ItemType where
  | pet
  | product
deriving DecidableEq, Repr

structure CartItem where
  type : ItemType
  id : Nat
  quantity : Nat
  client_price : Int
deriving DecidableEq, Repr

/-- The object pushed onto `orderItems` by the create-intent handler. -/
structure ResolvedItem where
  type : String
  id : Nat
  name : String
  price : Int
  quantity : Nat
deriving DecidableEq, Repr

/-- A Stripe payment intent as seen through
`stripe.paymentIntents.retrieve`: its id, gateway status and payment
method. -/
structure Intent where
  id : String
  status : String
  payment_method : String
deriving DecidableEq, Repr

/-! ### Row lookups (`SELECT … WHERE id = ?`) and views -/

def findPet (s : Store) (pid : Nat) : Option Pet :=
  s.pets.find? (fun p => p.id == pid)

def findProduct (s : Store) (pid : Nat) : Option Product :=
  s.products.find? (fun p => p.id == pid)

def findOrderById (s : Store) (oid : Nat) : Option Order :=
  s.orders.find? (fun o => o.id == oid)

/-- `SELECT id, user_id, status FROM orders WHERE id = ? AND user_id = ?`. -/
def findUserOrder (s : Store) (oid uid : Nat) : Option Order :=
  s.orders.find? (fun o => o.id == oid && o.user_id == uid)

def orderStatus (s : Store) (oid : Nat) : Option String :=
  (findOrderById s oid).map (fun o => o.status)

def orderTotal (s : Store) (oid : Nat) : Option Int :=
  (findOrderById s oid).map (fun o => o.total_amount)

def productStock (s : Store) (pid : Nat) : Option Int :=
  (findProduct s pid).map (fun p => p.stock_quantity)

def petAvailable (s : Store) (pid : Nat) : Option Bool :=
  (findPet s pid).map (fun p => p.is_available)

def paymentStatusByIntent (s : Store) (intentId : String) : Option String :=
  (s.payments.find? (fun p => p.stripe_payment_intent_id == intentId)).map
    (fun p => p.status)

def itemsOfOrder (s : Store) (oid : Nat) : List OrderItem :=
  s.order_items.filter (fun it => it.order_id == oid)

/-! ### POST /api/payment/create-intent

The handler loops over the cart.  For each item it runs a `db.get`
whose callback either sends a 400 response (item missing / unavailable
/ under-stocked) or adds `price * quantity` to `totalAmount` and pushes
the resolved item; only the first response sent reaches the client,
but a failing item does NOT stop the other callbacks from
accumulating, nor the continuation after the 100 ms wait from running.
After the wait: if `totalAmount === 0` it answers `No valid items` and
writes nothing; otherwise it inserts the order row, then each
order-item row, then (after the Stripe intent is created) the payment
row — these are separate statements, not one transaction. -/

def resolveItem (s : Store) (it : CartItem) : Except String ResolvedItem :=
  match it.type with
  | ItemType.pet =>
    match findPet s it.id with
    | none => Except.error ("Pet with ID " ++ toString it.id ++ " not found")
    | some pet =>
      if !pet.is_available then
        Except.error ("Pet \"" ++ pet.name ++ "\" is not available")
      else
        Except.ok ⟨"pet", pet.id, pet.name, pet.price, it.quantity⟩
  | ItemType.product =>
    match findProduct s it.id with
    | none => Except.error ("Product with ID " ++ toString it.id ++ " not found")
    | some product =>
      if !product.is_available || product.stock_quantity < (it.quantity : Int) then
        Except.error ("Product \"" ++ product.name ++
          "\" is not available in sufficient quantity")
      else
        Except.ok ⟨"product", product.id, product.name, product.price, it.quantity⟩

/-- One step of the validation loop: accumulated
`(totalAmount, orderItems, first 400 already sent)`. -/
def resolveStep (s : Store) (acc : Int × List ResolvedItem × Option String)
    (it : CartItem) : Int × List ResolvedItem × Option String :=
  match resolveItem s it with
  | Except.ok r => (acc.1 + r.price * (r.quantity : Int), acc.2.1 ++ [r], acc.2.2)
  | Except.error m => (acc.1, acc.2.1, acc.2.2 <|> some m)

def resolveCart (s : Store) (items : List CartItem) :
    Int × List ResolvedItem × Option String :=
  items.foldl (resolveStep s) (0, [], none)

/-- `AUTOINCREMENT` id for the next `orders` row (`this.lastID`). -/
def nextOrderId (s : Store) : Nat :=
  (s.orders.foldl (fun m o => max m o.id) 0) + 1

def mkOrder (oid uid : Nat) (onum : String) (total : Int)
    (ship bill notes : String) : Order :=
  { id := oid, user_id := uid, order_number := onum, total_amount := total,
    status := "pending", payment_status := "pending",
    shipping_address := ship, billing_address := bill, notes := notes }

def mkOrderItem (oid : Nat) (r : ResolvedItem) : OrderItem :=
  { order_id := oid, item_type := r.type, item_id := r.id,
    quantity := r.quantity, price := r.price }

/-- `INSERT INTO orders …`. -/
def insertOrder (s : Store) (o : Order) : Store :=
  { s with orders := s.orders ++ [o] }

/-- One `INSERT INTO order_items …`. -/
def insertOrderItem (oid : Nat) (s : Store) (r : ResolvedItem) : Store :=
  { s with order_items := s.order_items ++ [mkOrderItem oid r] }

/-- `INSERT INTO payments (order_id, stripe_payment_intent_id, amount, status)`. -/
def insertPayment (s : Store) (oid : Nat) (intentId : String) (total : Int) : Store :=
  { s with payments :=
      s.payments ++ [⟨oid, intentId, total, "pending", "", ""⟩] }

/-- The client-visible response of the create-intent route (the first
response the handler manages to send). -/
inductive CreateResp where
  | itemError (msg : String)
  | noValidItems
  | success (orderId : Nat) (orderNumber : String) (totalAmount : Int)
deriving DecidableEq, Repr

/-- The create-intent handler.  `onum` is the generated
`ORD-…` order number, `intentId` the id of the Stripe intent
(the gateway-success path).  When some item failed, the 400 sent from
its callback is the client's response, but when `totalAmount` is
non-zero the continuation still inserts the order, its resolved items
and the payment row — the callback `return` only left the callback. -/
def create_order_and_intent (s : Store) (uid : Nat) (items : List CartItem)
    (onum intentId ship : String) (billing : Option String) (notes : String) :
    CreateResp × Store :=
  let res := resolveCart s items
  if res.1 == 0 then
    (res.2.2.elim CreateResp.noValidItems CreateResp.itemError, s)
  else
    let oid := nextOrderId s
    let s1 := insertOrder s (mkOrder oid uid onum res.1 ship (billing.getD ship) notes)
    let s2 := res.2.1.foldl (insertOrderItem oid) s1
    let s3 := insertPayment s2 oid intentId res.1
    (res.2.2.elim (CreateResp.success oid onum res.1) CreateResp.itemError, s3)

/-- Stores visible after each single `INSERT` of the create-intent
handler (each statement is its own implicit transaction). -/
def insertItemsTrace (oid : Nat) (st : Store) : List ResolvedItem → List Store
  | [] => []
  | r :: rs => insertOrderItem oid st r :: insertItemsTrace oid (insertOrderItem oid st r) rs

def createTrace (s : Store) (uid : Nat) (items : List CartItem)
    (onum intentId ship : String) (billing : Option String) (notes : String) :
    List Store :=
  let res := resolveCart s items
  if res.1 == 0 then []
  else
    let oid := nextOrderId s
    let s1 := insertOrder s (mkOrder oid uid onum res.1 ship (billing.getD ship) notes)
    let s2 := res.2.1.foldl (insertOrderItem oid) s1
    s1 :: (insertItemsTrace oid s1 res.2.1 ++ [insertPayment s2 oid intentId res.1])

/-! ### POST /api/payment/confirm -/

/-- `UPDATE orders SET status = 'confirmed', payment_status = 'paid' WHERE id = ?`. -/
def updateOrderConfirmed (s : Store) (oid : Nat) : Store :=
  { s with orders := s.orders.map (fun o =>
      if o.id == oid then { o with status := "confirmed", payment_status := "paid" }
      else o) }

/-- `UPDATE payments SET status='completed', payment_method=?, transaction_id=?
WHERE order_id = ? AND stripe_payment_intent_id = ?`. -/
def updatePaymentCompleted (s : Store) (oid : Nat) (intent : Intent) : Store :=
  { s with payments := s.payments.map (fun p =>
      if p.order_id == oid && p.stripe_payment_intent_id == intent.id then
        { p with status := "completed", payment_method := intent.payment_method,
                 transaction_id := intent.id }
      else p) }

/-- One iteration of the `orderItems.forEach`: for a product,
`UPDATE shop_products SET stock_quantity = stock_quantity - ? WHERE id = ?`
(no `stock_quantity >= ?` guard); for a pet,
`UPDATE pets SET is_available = 0 WHERE id = ?`. -/
def applyItemEffect (s : Store) (it : OrderItem) : Store :=
  if it.item_type == "product" then
    { s with products := s.products.map (fun p =>
        if p.id == it.item_id then
          { p with stock_quantity := p.stock_quantity - (it.quantity : Int) }
        else p) }
  else if it.item_type == "pet" then
    { s with pets := s.pets.map (fun p =>
        if p.id == it.item_id then { p with is_available := false } else p) }
  else s

def applySideEffects (s : Store) (items : List OrderItem) : Store :=
  items.foldl applyItemEffect s

/-- The sequence of SQL statements the confirm route issues once its
checks have passed, as the store after each statement: order update,
payment update, then one statement per order item. -/
def sideEffectsTrace (st : Store) : List OrderItem → List Store
  | [] => []
  | it :: rest => applyItemEffect st it :: sideEffectsTrace (applyItemEffect st it) rest

def confirmWritesTrace (s : Store) (oid : Nat) (intent : Intent) : List Store :=
  let s1 := updateOrderConfirmed s oid
  let s2 := updatePaymentCompleted s1 oid intent
  s1 :: s2 :: sideEffectsTrace s2 (itemsOfOrder s2 oid)

inductive ConfirmResp where
  | paymentNotCompleted
  | orderNotFound
  | alreadyProcessed
  | success
deriving DecidableEq, Repr

/-- The confirm handler.  `intent` is what
`stripe.paymentIntents.retrieve(paymentIntentId)` returned; nothing
ever compares it against the order or the recorded payment row beyond
the `WHERE` clause of the payment update. -/
def confirm_payment (s : Store) (uid oid : Nat) (intent : Intent) :
    ConfirmResp × Store :=
  if intent.status != "succeeded" then
    (ConfirmResp.paymentNotCompleted, s)
  else
    match findUserOrder s oid uid with
    | none => (ConfirmResp.orderNotFound, s)
    | some o =>
      if o.status != "pending" then (ConfirmResp.alreadyProcessed, s)
      else
        let s1 := updateOrderConfirmed s oid
        let s2 := updatePaymentCompleted s1 oid intent
        (ConfirmResp.success, applySideEffects s2 (itemsOfOrder s2 oid))

/-! ### POST /api/payment/webhook -/

inductive WebhookEvent where
  | succeeded (intentId : String)
  | failed (intentId : String)
  | other (eventType : String)
deriving DecidableEq, Repr

inductive WebhookResp where
  | received
  | invalidSignature
deriving DecidableEq, Repr

/-- `UPDATE payments SET status = ? WHERE stripe_payment_intent_id = ?`. -/
def setPaymentStatusByIntent (s : Store) (intentId newStatus : String) : Store :=
  { s with payments := s.payments.map (fun p =>
      if p.stripe_payment_intent_id == intentId then { p with status := newStatus }
      else p) }

/-- The webhook handler.  `sigValid` models whether
`stripe.webhooks.constructEvent` accepts the `stripe-signature` header
against `STRIPE_WEBHOOK_SECRET`; on failure the handler answers 400
before obtaining the database handle. -/
def handle_gateway_webhook (s : Store) (sigValid : Bool) (event : WebhookEvent) :
    WebhookResp × Store :=
  if !sigValid then (WebhookResp.invalidSignature, s)
  else
    match event with
    | WebhookEvent.succeeded intentId =>
      (WebhookResp.received, setPaymentStatusByIntent s intentId "completed")
    | WebhookEvent.failed intentId =>
      (WebhookResp.received, setPaymentStatusByIntent s intentId "failed")
    | WebhookEvent.other _ => (WebhookResp.received, s)

/-! ### Spec-side definitions (refinement targets) -/

/-- The catalog's current price of a cart item, as the spec words it
("the catalog's current price"), read off the store. -/
def catalogPrice (s : Store) (it : CartItem) : Int :=
  match it.type with
  | ItemType.pet => ((findPet s it.id).map (fun p => p.price)).getD 0
  | ItemType.product => ((findProduct s it.id).map (fun p => p.price)).getD 0

/-- Spec-side total: the sum over cart items of the catalog's current
price times the requested quantity. -/
def specTotal (s : Store) (items : List CartItem) : Int :=
  (items.map (fun it => catalogPrice s it * (it.quantity : Int))).sum

def isOkResolved : Except String ResolvedItem → Bool
  | Except.ok _ => true
  | Except.error _ => false

/-- A valid cart: every item passes catalog resolution. -/
def validCart (s : Store) (items : List CartItem) : Prop :=
  ∀ it ∈ items, isOkResolved (resolveItem s it) = true

instance (s : Store) (items : List CartItem) : Decidable (validCart s items) :=
  List.decidableBAll _ items

/-- Referential-integrity view used by the spec: every OrderItem row
has its Order row. -/
def itemsHaveOrders (t : Store) : Prop :=
  ∀ it ∈ t.order_items, ∃ o ∈ t.orders, o.id = it.order_id

instance (t : Store) : Decidable (itemsHaveOrders t) :=
  List.decidableBAll _ t.order_items

/-! ### Concrete fixtures (used by counterexamples and witnesses) -/

def demoAddr : String := "221B Baker Street, London"

def cardIntent (pid : String) : Intent := ⟨pid, "succeeded", "card"⟩

/-- Cart with an unavailable pet followed by an in-stock product. -/
def cs2 : Store :=
  { pets := [⟨3, "Rex", 25000, false⟩],
    products := [⟨7, "Chewable Dog Toy", 599, 50, true⟩],
    orders := [], order_items := [], payments := [] }

def cart2items : List CartItem :=
  [⟨ItemType.pet, 3, 1, 0⟩, ⟨ItemType.product, 7, 2, 0⟩]

/-- A single product with one unit of stock. -/
def cs4 : Store :=
  { pets := [], products := [⟨7, "Chewable Dog Toy", 599, 1, true⟩],
    orders := [], order_items := [], payments := [] }

def cart4 : List CartItem := [⟨ItemType.product, 7, 1, 0⟩]

def s4a : Store := (create_order_and_intent cs4 1 cart4 "ORD-1" "pi_1" demoAddr none "").2

def s4b : Store := (create_order_and_intent s4a 1 cart4 "ORD-2" "pi_2" demoAddr none "").2

def s4c : Store := (confirm_payment s4b 1 1 (cardIntent "pi_1")).2

def s4d : Store := (confirm_payment s4c 1 2 (cardIntent "pi_2")).2

/-- A pending order for two units of a product, with its payment row. -/
def cs6 : Store :=
  { pets := [],
    products := [⟨7, "Chewable Dog Toy", 599, 5, true⟩],
    orders := [mkOrder 1 1 "ORD-1" 1198 demoAddr demoAddr ""],
    order_items := [⟨1, "product", 7, 2, 599⟩],
    payments := [⟨1, "pi_1", 1198, "pending", "", ""⟩] }

/-- Order 1 pending for user 1 whose recorded intent is `pi_A`; the
confirm call will present the unrelated succeeded intent `pi_B`. -/
def w10s : Store :=
  { pets := [], products := [],
    orders := [mkOrder 1 1 "ORD-9" 500 demoAddr demoAddr ""],
    order_items := [],
    payments := [⟨1, "pi_A", 500, "pending", "", ""⟩] }

/-- Catalog for the C1 witness: one product, price 599. -/
def w1s : Store :=
  { pets := [], products := [⟨7, "Chewable Dog Toy", 599, 50, true⟩],
    orders := [], order_items := [], payments := [] }

def w1items : List CartItem := [⟨ItemType.product, 7, 2, 123⟩]

/-- The store right after the first statement of a confirm on `cs6`:
order update done, nothing else. -/
def c8state : Store := updateOrderConfirmed cs6 1

/-- The store right after the first statement of a create-intent on
`cs4`: order row inserted, no order-item row yet. -/
def c9state : Store :=
  (createTrace cs4 1 cart4 "ORD-1" "pi_1" demoAddr none "").headD cs4

/-! ### Helper lemmas -/

theorem find?_map_pres {α : Type} (f : α → α) (p : α → Bool)
    (h : ∀ a, p (f a) = p a) :
    ∀ l : List α, (l.map f).find? p = (l.find? p).map f := by
  intro l
  induction l with
  | nil => rfl
  | cons a l ih =>
    simp only [List.map_cons, List.find?]
    rw [h a]
    cases hp : p a
    · exact ih
    · rfl

theorem find?_append_none {α : Type} (p : α → Bool) (l l' : List α)
    (h : ∀ x ∈ l, p x = false) : (l ++ l').find? p = l'.find? p := by
  induction l with
  | nil => rfl
  | cons a l ih =>
    simp only [List.cons_append, List.find?]
    rw [h a (List.mem_cons_self a l)]
    exact ih (fun x hx => h x (List.mem_cons_of_mem a hx))

theorem applyItemEffect_orders (s : Store) (it : OrderItem) :
    (applyItemEffect s it).orders = s.orders := by
  unfold applyItemEffect
  split
  · rfl
  · split <;> rfl

theorem applyItemEffect_payments (s : Store) (it : OrderItem) :
    (applyItemEffect s it).payments = s.payments := by
  unfold applyItemEffect
  split
  · rfl
  · split <;> rfl

theorem applyItemEffect_order_items (s : Store) (it : OrderItem) :
    (applyItemEffect s it).order_items = s.order_items := by
  unfold applyItemEffect
  split
  · rfl
  · split <;> rfl

theorem applySideEffects_orders (items : List OrderItem) :
    ∀ s : Store, (applySideEffects s items).orders = s.orders := by
  induction items with
  | nil => intro s; rfl
  | cons it rest ih =>
    intro s
    show (applySideEffects (applyItemEffect s it) rest).orders = s.orders
    rw [ih, applyItemEffect_orders]

theorem applySideEffects_payments (items : List OrderItem) :
    ∀ s : Store, (applySideEffects s items).payments = s.payments := by
  induction items with
  | nil => intro s; rfl
  | cons it rest ih =>
    intro s
    show (applySideEffects (applyItemEffect s it) rest).payments = s.payments
    rw [ih, applyItemEffect_payments]

theorem sideEffectsTrace_orders (items : List OrderItem) :
    ∀ (u : Store), ∀ t ∈ sideEffectsTrace u items, t.orders = u.orders := by
  induction items with
  | nil => intro u t ht; cases ht
  | cons it rest ih =>
    intro u t ht
    cases ht with
    | head => exact applyItemEffect_orders u it
    | tail _ hmem =>
      rw [ih (applyItemEffect u it) t hmem, applyItemEffect_orders]

theorem updateOrderConfirmed_payments (s : Store) (oid : Nat) :
    (updateOrderConfirmed s oid).payments = s.payments := rfl

theorem updatePaymentCompleted_orders (s : Store) (oid : Nat) (intent : Intent) :
    (updatePaymentCompleted s oid intent).orders = s.orders := rfl

theorem orderStatus_congr (t u : Store) (oid : Nat) (h : t.orders = u.orders) :
    orderStatus t oid = orderStatus u oid := by
  unfold orderStatus findOrderById
  rw [h]

/-- The order-row update preserves each row's `id` and `user_id`, so
any `WHERE`-clause on those columns is unchanged by it. -/
theorem updateOrderConfirmed_pred (oid : Nat) (p : Order → Bool)
    (hp : ∀ o : Order,
      p { o with status := "confirmed", payment_status := "paid" } = p o) :
    ∀ o : Order,
      p (if o.id == oid then { o with status := "confirmed", payment_status := "paid" }
         else o) = p o := by
  intro o
  by_cases h : o.id == oid
  · rw [if_pos h, hp]
  · rw [if_neg h]

theorem setPaymentStatusByIntent_idem (s : Store) (pid c : String) :
    setPaymentStatusByIntent (setPaymentStatusByIntent s pid c) pid c
      = setPaymentStatusByIntent s pid c := by
  unfold setPaymentStatusByIntent
  congr 1
  rw [List.map_map]
  apply List.map_congr_left
  intro p _
  simp only [Function.comp_apply]
  cases h : p.stripe_payment_intent_id == pid <;> simp [h]

/-! ### Claim theorems -/

/-- C5: a webhook delivery whose signature does not verify is answered
with the signature error and performs no state change at all: the
store is returned untouched, whatever the event was. -/
theorem webhook_invalid_signature_no_state_change (s : Store) (ev : WebhookEvent) :
    handle_gateway_webhook s false ev = (WebhookResp.invalidSignature, s) := rfl

/-- C7: delivering the same payment-succeeded webhook event twice is
idempotent — the second handling returns exactly the store produced by
the first, so the Payment status ends `completed` once and no side
effect is double-applied. -/
theorem webhook_succeeded_idempotent (s : Store) (intentId : String) :
    handle_gateway_webhook
        (handle_gateway_webhook s true (WebhookEvent.succeeded intentId)).2 true
        (WebhookEvent.succeeded intentId)
      = (WebhookResp.received,
         (handle_gateway_webhook s true (WebhookEvent.succeeded intentId)).2) := by
  show (WebhookResp.received,
      setPaymentStatusByIntent (setPaymentStatusByIntent s intentId "completed")
        intentId "completed") = _
  rw [setPaymentStatusByIntent_idem]
  rfl

/-- C6 amended: the payment-succeeded webhook only sets the matching
Payment row's status to `completed`; it leaves every Order, product
stock, pet availability and OrderItem row unchanged, so it does not
drive the order or stock to the confirmed outcome. -/
theorem webhook_updates_payment_status_only (s : Store) (intentId : String) :
    (handle_gateway_webhook s true (WebhookEvent.succeeded intentId)).1
        = WebhookResp.received ∧
    (handle_gateway_webhook s true (WebhookEvent.succeeded intentId)).2.orders
        = s.orders ∧
    (handle_gateway_webhook s true (WebhookEvent.succeeded intentId)).2.products
        = s.products ∧
    (handle_gateway_webhook s true (WebhookEvent.succeeded intentId)).2.pets
        = s.pets ∧
    (handle_gateway_webhook s true (WebhookEvent.succeeded intentId)).2.order_items
        = s.order_items ∧
    paymentStatusByIntent
        (handle_gateway_webhook s true (WebhookEvent.succeeded intentId)).2 intentId
      = (paymentStatusByIntent s intentId).map (fun _ => "completed") := by
  refine ⟨rfl, rfl, rfl, rfl, rfl, ?_⟩
  show paymentStatusByIntent (setPaymentStatusByIntent s intentId "completed") intentId = _
  unfold paymentStatusByIntent setPaymentStatusByIntent
  have hpres : ∀ p : Payment,
      ((if p.stripe_payment_intent_id == intentId then
          { p with status := "completed" } else p).stripe_payment_intent_id == intentId)
        = (p.stripe_payment_intent_id == intentId) := by
    intro p
    by_cases h : p.stripe_payment_intent_id == intentId
    · rw [if_pos h]
    · rw [if_neg h]
  rw [find?_map_pres _ _ hpres]
  cases hf : s.payments.find? (fun p => p.stripe_payment_intent_id == intentId) with
  | none => rfl
  | some p =>
    have hp0 := List.find?_some hf
    have hp : (p.stripe_payment_intent_id == intentId) = true := hp0
    simp only [Option.map_some']
    rw [if_pos hp]

/-- C6 counterexample: a pending order whose payment settles at the
gateway; the webhook completes the Payment row but leaves the order
`pending` and the stock undecremented, while a confirm_payment call on
the same store would have confirmed the order and decremented stock. -/
theorem webhook_leaves_order_pending_cex :
    (handle_gateway_webhook cs6 true (WebhookEvent.succeeded "pi_1")).1
        = WebhookResp.received ∧
    paymentStatusByIntent
        (handle_gateway_webhook cs6 true (WebhookEvent.succeeded "pi_1")).2 "pi_1"
        = some "completed" ∧
    orderStatus (handle_gateway_webhook cs6 true (WebhookEvent.succeeded "pi_1")).2 1
        = some "pending" ∧
    productStock (handle_gateway_webhook cs6 true (WebhookEvent.succeeded "pi_1")).2 7
        = some 5 ∧
    orderStatus (confirm_payment cs6 1 1 (cardIntent "pi_1")).2 1 = some "confirmed" ∧
    productStock (confirm_payment cs6 1 1 (cardIntent "pi_1")).2 7 = some 3 := by
  decide

/-- C2 (code bug): a cart holding an unavailable pet and an in-stock
product.  The route answers the 400 naming the unavailable pet, yet —
because the `return` in the sqlite callback only leaves the callback —
it still inserts an Order (carrying the valid product line), its
OrderItem and a Payment row: the store is not left unchanged. -/
theorem create_failed_item_still_writes_rows :
    (create_order_and_intent cs2 1 cart2items "ORD-1" "pi_1" demoAddr none "").1
        = CreateResp.itemError "Pet \"Rex\" is not available" ∧
    (create_order_and_intent cs2 1 cart2items "ORD-1" "pi_1" demoAddr none "").2.orders.length = 1 ∧
    (create_order_and_intent cs2 1 cart2items "ORD-1" "pi_1" demoAddr none "").2.order_items.length = 1 ∧
    (create_order_and_intent cs2 1 cart2items "ORD-1" "pi_1" demoAddr none "").2.payments.length = 1 := by
  decide

/-- C4 (code bug): stock can go negative.  With one unit in stock, two
orders are created (the stock check at creation passes for both since
nothing is reserved), and both confirms succeed because the
confirm-time decrement is an unguarded `stock_quantity = stock_quantity - ?`
with no `stock_quantity >= ?` condition: the final stock is `-1`. -/
theorem confirm_stock_goes_negative :
    (create_order_and_intent cs4 1 cart4 "ORD-1" "pi_1" demoAddr none "").1
        = CreateResp.success 1 "ORD-1" 599 ∧
    (create_order_and_intent s4a 1 cart4 "ORD-2" "pi_2" demoAddr none "").1
        = CreateResp.success 2 "ORD-2" 599 ∧
    (confirm_payment s4b 1 1 (cardIntent "pi_1")).1 = ConfirmResp.success ∧
    (confirm_payment s4c 1 2 (cardIntent "pi_2")).1 = ConfirmResp.success ∧
    productStock s4d 7 = some (-1) := by
  decide

theorem findUserOrder_updateOrderConfirmed (s : Store) (oid uid : Nat) :
    findUserOrder (updateOrderConfirmed s oid) oid uid
      = (findUserOrder s oid uid).map (fun o =>
          if o.id == oid then
            { o with status := "confirmed", payment_status := "paid" } else o) := by
  unfold findUserOrder updateOrderConfirmed
  apply find?_map_pres
  intro o
  by_cases h : (o.id == oid) = true
  · rw [if_pos h]
  · rw [if_neg h]

/-- On a pending order of the caller and a gateway-succeeded intent,
the confirm route takes its success path: order update, payment
update, then the per-item side effects. -/
theorem confirm_payment_success_eq (s : Store) (uid oid : Nat) (intent : Intent)
    (o : Order) (hi : intent.status = "succeeded")
    (ho : findUserOrder s oid uid = some o) (hp : o.status = "pending") :
    confirm_payment s uid oid intent
      = (ConfirmResp.success,
         applySideEffects
           (updatePaymentCompleted (updateOrderConfirmed s oid) oid intent)
           (itemsOfOrder
             (updatePaymentCompleted (updateOrderConfirmed s oid) oid intent) oid)) := by
  have h1 : (intent.status != "succeeded") = false := by rw [hi]; rfl
  have h2 : (o.status != "pending") = false := by rw [hp]; rfl
  simp [confirm_payment, h1, ho, h2]

/-- C3: after a successful confirmation, a second confirm_payment call
for the same order fails with AlreadyProcessed and returns the store
unchanged — the stock/pet side effects were applied exactly once, by
the first call. -/
theorem confirm_twice_second_already_processed (s : Store) (uid oid : Nat)
    (intent : Intent) (o : Order)
    (hi : intent.status = "succeeded")
    (ho : findUserOrder s oid uid = some o)
    (hp : o.status = "pending") :
    (confirm_payment s uid oid intent).1 = ConfirmResp.success ∧
    confirm_payment (confirm_payment s uid oid intent).2 uid oid intent
      = (ConfirmResp.alreadyProcessed, (confirm_payment s uid oid intent).2) := by
  have hcall := confirm_payment_success_eq s uid oid intent o hi ho hp
  have hsto : (confirm_payment s uid oid intent).2
      = applySideEffects
          (updatePaymentCompleted (updateOrderConfirmed s oid) oid intent)
          (itemsOfOrder
            (updatePaymentCompleted (updateOrderConfirmed s oid) oid intent) oid) := by
    rw [hcall]
  refine ⟨by rw [hcall], ?_⟩
  rw [hsto]
  have hords :
      (applySideEffects
        (updatePaymentCompleted (updateOrderConfirmed s oid) oid intent)
        (itemsOfOrder
          (updatePaymentCompleted (updateOrderConfirmed s oid) oid intent) oid)).orders
      = (updateOrderConfirmed s oid).orders := by
    rw [applySideEffects_orders, updatePaymentCompleted_orders]
  have ho' : s.orders.find? (fun x => x.id == oid && x.user_id == uid) = some o := ho
  have hPo := List.find?_some ho'
  have hid : (o.id == oid) = true := ((Bool.and_eq_true _ _).mp hPo).1
  have hfind : findUserOrder
      (applySideEffects
        (updatePaymentCompleted (updateOrderConfirmed s oid) oid intent)
        (itemsOfOrder
          (updatePaymentCompleted (updateOrderConfirmed s oid) oid intent) oid)) oid uid
      = some { o with status := "confirmed", payment_status := "paid" } := by
    unfold findUserOrder
    rw [hords]
    show findUserOrder (updateOrderConfirmed s oid) oid uid = _
    rw [findUserOrder_updateOrderConfirmed, ho]
    simp only [Option.map_some']
    rw [if_pos hid]
  have h1 : (intent.status != "succeeded") = false := by rw [hi]; rfl
  have h2 : (({ o with status := "confirmed", payment_status := "paid" } : Order).status
      != "pending") = true := rfl
  simp [confirm_payment, h1, hfind, h2]

/-- C3 witness: the pending order of `cs6`, confirmed twice. -/
theorem confirm_twice_second_already_processed_witness :
    (cardIntent "pi_1").status = "succeeded" ∧
    findUserOrder cs6 1 1 = some (mkOrder 1 1 "ORD-1" 1198 demoAddr demoAddr "") ∧
    (mkOrder 1 1 "ORD-1" 1198 demoAddr demoAddr "").status = "pending" ∧
    ((confirm_payment cs6 1 1 (cardIntent "pi_1")).1 = ConfirmResp.success ∧
     confirm_payment (confirm_payment cs6 1 1 (cardIntent "pi_1")).2 1 1 (cardIntent "pi_1")
       = (ConfirmResp.alreadyProcessed, (confirm_payment cs6 1 1 (cardIntent "pi_1")).2)) :=
  ⟨rfl, by decide, rfl,
    confirm_twice_second_already_processed cs6 1 1 (cardIntent "pi_1")
      (mkOrder 1 1 "ORD-1" 1198 demoAddr demoAddr "") rfl (by decide) rfl⟩

/-- C10: for a pending order of the caller and ANY gateway-succeeded
intent — here one whose id matches no payment row of this order —
confirm_payment still answers success and confirms the order, while
the payment update (keyed on order_id AND intent id) silently matches
zero rows and leaves the payments table untouched. -/
theorem confirm_ignores_intent_order_binding (s : Store) (uid oid : Nat)
    (intent : Intent) (o : Order)
    (hi : intent.status = "succeeded")
    (ho : findUserOrder s oid uid = some o)
    (hp : o.status = "pending")
    (hmis : ∀ p ∈ s.payments,
      (p.order_id == oid && p.stripe_payment_intent_id == intent.id) = false) :
    (confirm_payment s uid oid intent).1 = ConfirmResp.success ∧
    orderStatus (confirm_payment s uid oid intent).2 oid = some "confirmed" ∧
    (confirm_payment s uid oid intent).2.payments = s.payments := by
  have hcall := confirm_payment_success_eq s uid oid intent o hi ho hp
  have hsto : (confirm_payment s uid oid intent).2
      = applySideEffects
          (updatePaymentCompleted (updateOrderConfirmed s oid) oid intent)
          (itemsOfOrder
            (updatePaymentCompleted (updateOrderConfirmed s oid) oid intent) oid) := by
    rw [hcall]
  have ho' : s.orders.find? (fun x => x.id == oid && x.user_id == uid) = some o := ho
  have hmem := List.mem_of_find?_eq_some ho'
  have hPo := List.find?_some ho'
  have hid : (o.id == oid) = true := ((Bool.and_eq_true _ _).mp hPo).1
  refine ⟨by rw [hcall], ?_, ?_⟩
  · rw [hsto]
    have hords :
        (applySideEffects
          (updatePaymentCompleted (updateOrderConfirmed s oid) oid intent)
          (itemsOfOrder
            (updatePaymentCompleted (updateOrderConfirmed s oid) oid intent) oid)).orders
        = (updateOrderConfirmed s oid).orders := by
      rw [applySideEffects_orders, updatePaymentCompleted_orders]
    rw [orderStatus_congr _ _ _ hords]
    have hpres : ∀ x : Order,
        ((if x.id == oid then
            { x with status := "confirmed", payment_status := "paid" } else x).id == oid)
          = (x.id == oid) := by
      intro x
      by_cases hx : (x.id == oid) = true
      · rw [if_pos hx]
      · rw [if_neg hx]
    unfold orderStatus findOrderById updateOrderConfirmed
    rw [find?_map_pres _ _ hpres]
    cases hf : s.orders.find? (fun x => x.id == oid) with
    | none => exact absurd hid (List.find?_eq_none.mp hf o hmem)
    | some x =>
      have hxid := List.find?_some hf
      simp only [Option.map_some']
      rw [if_pos hxid]
  · rw [hsto, applySideEffects_payments]
    show s.payments.map
        (fun p => if p.order_id == oid && p.stripe_payment_intent_id == intent.id then
          { p with status := "completed", payment_method := intent.payment_method, transaction_id := intent.id } else p)
      = s.payments
    have hcongr : ∀ p ∈ s.payments,
        (if p.order_id == oid && p.stripe_payment_intent_id == intent.id then
          ({ p with status := "completed", payment_method := intent.payment_method, transaction_id := intent.id } : Payment) else p) = id p := by
      intro p hp'
      rw [if_neg]
      · rfl
      · rw [hmis p hp']
        exact Bool.false_ne_true
    rw [List.map_congr_left hcongr, List.map_id]

/-- C10 witness: order 1 (user 1, pending) whose recorded intent is
`pi_A`, confirmed with the unrelated succeeded intent `pi_B`. -/
theorem confirm_ignores_intent_order_binding_witness :
    (cardIntent "pi_B").status = "succeeded" ∧
    findUserOrder w10s 1 1 = some (mkOrder 1 1 "ORD-9" 500 demoAddr demoAddr "") ∧
    (mkOrder 1 1 "ORD-9" 500 demoAddr demoAddr "").status = "pending" ∧
    (∀ p ∈ w10s.payments,
      (p.order_id == 1 && p.stripe_payment_intent_id == (cardIntent "pi_B").id) = false) ∧
    ((confirm_payment w10s 1 1 (cardIntent "pi_B")).1 = ConfirmResp.success ∧
     orderStatus (confirm_payment w10s 1 1 (cardIntent "pi_B")).2 1 = some "confirmed" ∧
     (confirm_payment w10s 1 1 (cardIntent "pi_B")).2.payments = w10s.payments) :=
  ⟨rfl, by decide, rfl, by decide,
    confirm_ignores_intent_order_binding w10s 1 1 (cardIntent "pi_B")
      (mkOrder 1 1 "ORD-9" 500 demoAddr demoAddr "") rfl (by decide) rfl (by decide)⟩

theorem sideEffectsTrace_getLastD (items : List OrderItem) :
    ∀ u : Store, (sideEffectsTrace u items).getLastD u = applySideEffects u items := by
  induction items with
  | nil => intro u; rfl
  | cons it rest ih =>
    intro u
    show (applyItemEffect u it :: sideEffectsTrace (applyItemEffect u it) rest).getLastD u = _
    rw [List.getLastD_cons, ih]
    rfl

/-- The last state of the confirm write-trace is exactly the store the
confirm handler produces on its success path. -/
theorem confirmWritesTrace_getLastD (s : Store) (oid : Nat) (intent : Intent) :
    (confirmWritesTrace s oid intent).getLastD s
      = applySideEffects
          (updatePaymentCompleted (updateOrderConfirmed s oid) oid intent)
          (itemsOfOrder
            (updatePaymentCompleted (updateOrderConfirmed s oid) oid intent) oid) := by
  show (updateOrderConfirmed s oid :: updatePaymentCompleted (updateOrderConfirmed s oid) oid intent
      :: sideEffectsTrace (updatePaymentCompleted (updateOrderConfirmed s oid) oid intent)
          (itemsOfOrder (updatePaymentCompleted (updateOrderConfirmed s oid) oid intent) oid)).getLastD s = _
  rw [List.getLastD_cons, List.getLastD_cons, sideEffectsTrace_getLastD]

/-- C8 amended: the confirm mutations run as separate sequential
statements with the order update first, so every store in the confirm
write-trace already shows the order confirmed (hence no reachable
state has stock decremented with the order still pending) — but the
trace's intermediate states, unlike an atomic unit, are reachable with
the payment/stock/pet side effects not yet applied. -/
theorem confirm_trace_order_already_confirmed (s : Store) (oid : Nat) (intent : Intent)
    (o : Order) (ho : findOrderById s oid = some o) :
    ∀ t ∈ confirmWritesTrace s oid intent, orderStatus t oid = some "confirmed" := by
  have ho' : s.orders.find? (fun x => x.id == oid) = some o := ho
  have hid0 := List.find?_some ho'
  have hid : (o.id == oid) = true := hid0
  have hpres : ∀ x : Order,
      ((if x.id == oid then
          { x with status := "confirmed", payment_status := "paid" } else x).id == oid)
        = (x.id == oid) := by
    intro x
    by_cases hx : (x.id == oid) = true
    · rw [if_pos hx]
    · rw [if_neg hx]
  have hs1 : orderStatus (updateOrderConfirmed s oid) oid = some "confirmed" := by
    unfold orderStatus findOrderById updateOrderConfirmed
    rw [find?_map_pres _ _ hpres, ho']
    simp only [Option.map_some']
    rw [if_pos hid]
  intro t ht
  simp only [confirmWritesTrace] at ht
  cases ht with
  | head => exact hs1
  | tail _ ht2 =>
    cases ht2 with
    | head =>
      rw [orderStatus_congr _ _ _ (updatePaymentCompleted_orders _ _ _)]
      exact hs1
    | tail _ ht3 =>
      rw [orderStatus_congr _ _ _ (sideEffectsTrace_orders _ _ t ht3)]
      rw [orderStatus_congr _ _ _ (updatePaymentCompleted_orders _ _ _)]
      exact hs1

/-- C8 amended-theorem witness: the pending order of `cs6`. -/
theorem confirm_trace_order_already_confirmed_witness :
    findOrderById cs6 1 = some (mkOrder 1 1 "ORD-1" 1198 demoAddr demoAddr "") ∧
    orderStatus c8state 1 = some "confirmed" :=
  ⟨by decide,
    confirm_trace_order_already_confirmed cs6 1 (cardIntent "pi_1")
      (mkOrder 1 1 "ORD-1" 1198 demoAddr demoAddr "") (by decide) c8state (by decide)⟩

/-- C8 counterexample: after the first confirm statement (the order
update) the store — a reachable state, each statement being its own
transaction — has the order confirmed while the stock is undecremented
and the Payment row still pending; the full run would end at stock 3. -/
theorem confirm_not_atomic_cex :
    c8state ∈ confirmWritesTrace cs6 1 (cardIntent "pi_1") ∧
    orderStatus c8state 1 = some "confirmed" ∧
    productStock c8state 7 = some 5 ∧
    paymentStatusByIntent c8state "pi_1" = some "pending" ∧
    productStock (confirm_payment cs6 1 1 (cardIntent "pi_1")).2 7 = some 3 := by
  decide

theorem insertOrderItem_orders (oid : Nat) (u : Store) (r : ResolvedItem) :
    (insertOrderItem oid u r).orders = u.orders := rfl

theorem insertOrderItem_inv (oid : Nat) (u : Store) (r : ResolvedItem)
    (hu : itemsHaveOrders u) (hoid : ∃ o ∈ u.orders, o.id = oid) :
    itemsHaveOrders (insertOrderItem oid u r) := by
  intro it hit
  rcases List.mem_append.mp hit with h | h
  · obtain ⟨o, hm, he⟩ := hu it h
    exact ⟨o, hm, he⟩
  · obtain ⟨o, hm, he⟩ := hoid
    have hit' : it = mkOrderItem oid r := List.mem_singleton.mp h
    rw [hit']
    exact ⟨o, hm, he⟩

theorem insertItemsTrace_inv (oid : Nat) :
    ∀ (ris : List ResolvedItem) (u : Store), itemsHaveOrders u →
      (∃ o ∈ u.orders, o.id = oid) →
      ∀ t ∈ insertItemsTrace oid u ris, itemsHaveOrders t := by
  intro ris
  induction ris with
  | nil => intro u _ _ t ht; cases ht
  | cons r rs ih =>
    intro u hu hoid t ht
    have hoid' : ∃ o ∈ (insertOrderItem oid u r).orders, o.id = oid := by
      obtain ⟨o, hm, he⟩ := hoid
      exact ⟨o, hm, he⟩
    cases ht with
    | head => exact insertOrderItem_inv oid u r hu hoid
    | tail _ ht2 =>
      exact ih (insertOrderItem oid u r) (insertOrderItem_inv oid u r hu hoid) hoid' t ht2

theorem foldl_insertOrderItem_inv (oid : Nat) :
    ∀ (ris : List ResolvedItem) (u : Store), itemsHaveOrders u →
      (∃ o ∈ u.orders, o.id = oid) →
      itemsHaveOrders (ris.foldl (insertOrderItem oid) u) := by
  intro ris
  induction ris with
  | nil => intro u hu _; exact hu
  | cons r rs ih =>
    intro u hu hoid
    have hoid' : ∃ o ∈ (insertOrderItem oid u r).orders, o.id = oid := by
      obtain ⟨o, hm, he⟩ := hoid
      exact ⟨o, hm, he⟩
    exact ih (insertOrderItem oid u r) (insertOrderItem_inv oid u r hu hoid) hoid'

/-- C9 amended: the Order row is inserted first and each OrderItem in
its own later statement, so every state in the create write-trace
keeps the referential half of the invariant — no OrderItem row ever
exists without its Order row — while the converse half fails at the
head of the trace (see the counterexample). -/
theorem create_trace_items_have_orders (s : Store) (uid : Nat) (items : List CartItem)
    (onum intentId ship : String) (billing : Option String) (notes : String)
    (hs : itemsHaveOrders s) :
    ∀ t ∈ createTrace s uid items onum intentId ship billing notes, itemsHaveOrders t := by
  intro t ht
  simp only [createTrace] at ht
  split at ht
  · cases ht
  · have h1 : itemsHaveOrders (insertOrder s
        (mkOrder (nextOrderId s) uid onum (resolveCart s items).1 ship
          (billing.getD ship) notes)) := by
      intro it hit
      obtain ⟨o, hm, he⟩ := hs it hit
      exact ⟨o, List.mem_append_left _ hm, he⟩
    have hoid : ∃ o ∈ (insertOrder s
        (mkOrder (nextOrderId s) uid onum (resolveCart s items).1 ship
          (billing.getD ship) notes)).orders, o.id = nextOrderId s := by
      refine ⟨mkOrder (nextOrderId s) uid onum (resolveCart s items).1 ship
        (billing.getD ship) notes, ?_, rfl⟩
      exact List.mem_append_right _ (List.mem_cons_self _ _)
    cases ht with
    | head => exact h1
    | tail _ ht2 =>
      rcases List.mem_append.mp ht2 with h | h
      · exact insertItemsTrace_inv (nextOrderId s) _ _ h1 hoid t h
      · have hteq := List.mem_singleton.mp h
        rw [hteq]
        intro it hit
        exact foldl_insertOrderItem_inv (nextOrderId s) (resolveCart s items).2.1 _ h1 hoid it hit

/-- C9 amended-theorem witness: the create of `cs4`, whose whole trace
keeps the no-orphan-OrderItem half of the invariant. -/
theorem create_trace_items_have_orders_witness :
    itemsHaveOrders cs4 ∧ itemsHaveOrders c9state :=
  ⟨by decide,
    create_trace_items_have_orders cs4 1 cart4 "ORD-1" "pi_1" demoAddr none ""
      (by decide) c9state (by decide)⟩

/-- C9 counterexample: the state after the first create statement — a
reachable state, the inserts being separate statements — holds the new
Order row with none of its OrderItem rows yet. -/
theorem create_not_transactional_cex :
    c9state ∈ createTrace cs4 1 cart4 "ORD-1" "pi_1" demoAddr none "" ∧
    findOrderById c9state 1 = some (mkOrder 1 1 "ORD-1" 599 demoAddr demoAddr "") ∧
    itemsOfOrder c9state 1 = [] := by
  decide

theorem resolveItem_ok_spec (s : Store) (it : CartItem)
    (h : isOkResolved (resolveItem s it) = true) :
    ∃ r, resolveItem s it = Except.ok r ∧ r.price = catalogPrice s it ∧
      r.quantity = it.quantity := by
  cases hty : it.type with
  | pet =>
    cases hf : findPet s it.id with
    | none =>
      exfalso
      unfold resolveItem at h
      rw [hty, hf] at h
      simp [isOkResolved] at h
    | some pet =>
      by_cases ha : pet.is_available = true
      · refine ⟨⟨"pet", pet.id, pet.name, pet.price, it.quantity⟩, ?_, ?_, rfl⟩
        · simp [resolveItem, hty, hf, ha]
        · simp [catalogPrice, hty, hf]
      · exfalso
        unfold resolveItem at h
        rw [hty, hf] at h
        simp [ha, isOkResolved] at h
  | product =>
    cases hf : findProduct s it.id with
    | none =>
      exfalso
      unfold resolveItem at h
      rw [hty, hf] at h
      simp [isOkResolved] at h
    | some product =>
      by_cases ha : product.is_available = true
      · by_cases hq : product.stock_quantity < (it.quantity : Int)
        · exfalso
          unfold resolveItem at h
          rw [hty, hf] at h
          simp [ha, hq, isOkResolved] at h
        · refine ⟨⟨"product", product.id, product.name, product.price, it.quantity⟩,
            ?_, ?_, rfl⟩
          · simp [resolveItem, hty, hf, ha, hq]
          · simp [catalogPrice, hty, hf]
      · exfalso
        unfold resolveItem at h
        rw [hty, hf] at h
        simp [ha, isOkResolved] at h

theorem resolveCart_fold_spec (s : Store) :
    ∀ (items : List CartItem) (acc : Int × List ResolvedItem × Option String),
      (∀ it ∈ items, isOkResolved (resolveItem s it) = true) →
      (items.foldl (resolveStep s) acc).1 = acc.1 + specTotal s items ∧
      (items.foldl (resolveStep s) acc).2.2 = acc.2.2 := by
  intro items
  induction items with
  | nil =>
    intro acc _
    constructor
    · show acc.1 = acc.1 + specTotal s []
      rw [show specTotal s [] = 0 from rfl, add_zero]
    · rfl
  | cons it rest ih =>
    intro acc h
    obtain ⟨r, hr, hprice, hqty⟩ :=
      resolveItem_ok_spec s it (h it (List.mem_cons_self it rest))
    have hstep : resolveStep s acc it
        = (acc.1 + r.price * (r.quantity : Int), acc.2.1 ++ [r], acc.2.2) := by
      unfold resolveStep
      rw [hr]
    have hcons : specTotal s (it :: rest)
        = catalogPrice s it * (it.quantity : Int) + specTotal s rest := by
      unfold specTotal
      rw [List.map_cons, List.sum_cons]
    rw [List.foldl_cons, hstep]
    obtain ⟨ih1, ih2⟩ := ih (acc.1 + r.price * (r.quantity : Int), acc.2.1 ++ [r], acc.2.2)
      (fun x hx => h x (List.mem_cons_of_mem it hx))
    constructor
    · rw [ih1]
      show acc.1 + r.price * (r.quantity : Int) + specTotal s rest
        = acc.1 + specTotal s (it :: rest)
      rw [hcons, hprice, hqty, add_assoc]
    · exact ih2

theorem resolveCart_valid (s : Store) (items : List CartItem) (hv : validCart s items) :
    (resolveCart s items).1 = specTotal s items ∧ (resolveCart s items).2.2 = none := by
  obtain ⟨h1, h2⟩ := resolveCart_fold_spec s items (0, [], none) hv
  constructor
  · show (items.foldl (resolveStep s) (0, [], none)).1 = specTotal s items
    rw [h1]
    show (0 : Int) + specTotal s items = specTotal s items
    rw [zero_add]
  · exact h2

theorem le_foldl_max : ∀ (l : List Order) (a : Nat),
    a ≤ l.foldl (fun m o => max m o.id) a := by
  intro l
  induction l with
  | nil => intro a; exact le_refl a
  | cons o rest ih =>
    intro a
    exact le_trans (le_max_left a o.id) (ih (max a o.id))

theorem mem_id_le_foldl_max : ∀ (l : List Order) (a : Nat) (o : Order), o ∈ l →
    o.id ≤ l.foldl (fun m x => max m x.id) a := by
  intro l
  induction l with
  | nil => intro a o ho; cases ho
  | cons x rest ih =>
    intro a o ho
    cases ho with
    | head => exact le_trans (le_max_right a _) (le_foldl_max rest _)
    | tail _ hmem => exact ih (max a x.id) o hmem

/-- Every existing order id is strictly below the freshly assigned one. -/
theorem orders_fresh_beq (s : Store) : ∀ o ∈ s.orders, (o.id == nextOrderId s) = false := by
  intro o h
  exact beq_eq_false_iff_ne.mpr
    (Nat.ne_of_lt (Nat.lt_succ_of_le (mem_id_le_foldl_max s.orders 0 o h)))

theorem foldl_insertOrderItem_orders (oid : Nat) :
    ∀ (ris : List ResolvedItem) (u : Store),
      (ris.foldl (insertOrderItem oid) u).orders = u.orders := by
  intro ris
  induction ris with
  | nil => intro u; rfl
  | cons r rs ih =>
    intro u
    show (rs.foldl (insertOrderItem oid) (insertOrderItem oid u r)).orders = u.orders
    rw [ih]
    rfl

theorem resolveItem_clientPrice (s : Store) (it : CartItem) (c : Int) :
    resolveItem s { it with client_price := c } = resolveItem s it := by
  cases it
  rfl

theorem foldl_resolveStep_clientPrice (s : Store) (f : CartItem → Int) :
    ∀ (items : List CartItem) (acc : Int × List ResolvedItem × Option String),
      (items.map (fun it => { it with client_price := f it })).foldl (resolveStep s) acc
        = items.foldl (resolveStep s) acc := by
  intro items
  induction items with
  | nil => intro acc; rfl
  | cons it rest ih =>
    intro acc
    show (rest.map _).foldl (resolveStep s)
        (resolveStep s acc { it with client_price := f it }) = _
    have hone : resolveStep s acc { it with client_price := f it }
        = resolveStep s acc it := by
      unfold resolveStep
      rw [resolveItem_clientPrice]
    rw [hone, List.foldl_cons]
    exact ih (resolveStep s acc it)

theorem resolveCart_clientPrice (s : Store) (f : CartItem → Int) (items : List CartItem) :
    resolveCart s (items.map (fun it => { it with client_price := f it }))
      = resolveCart s items :=
  foldl_resolveStep_clientPrice s f items (0, [], none)

/-- C1: for a valid cart (every item resolves against the catalog)
with non-zero total, the create-intent route answers success with the
spec-side total Σ catalog price × quantity, stores exactly that total
on the created Order row, and its outcome is unchanged under arbitrary
rewriting of any client-supplied price field on the cart items. -/
theorem create_total_from_catalog (s : Store) (uid : Nat) (items : List CartItem)
    (onum intentId ship : String) (billing : Option String) (notes : String)
    (hval : validCart s items) (hnz : specTotal s items ≠ 0) :
    (create_order_and_intent s uid items onum intentId ship billing notes).1
      = CreateResp.success (nextOrderId s) onum (specTotal s items) ∧
    orderTotal (create_order_and_intent s uid items onum intentId ship billing notes).2
        (nextOrderId s)
      = some (specTotal s items) ∧
    ∀ f : CartItem → Int,
      create_order_and_intent s uid (items.map (fun it => { it with client_price := f it }))
          onum intentId ship billing notes
        = create_order_and_intent s uid items onum intentId ship billing notes := by
  obtain ⟨h1, h2⟩ := resolveCart_valid s items hval
  have hcnot : ¬ (((resolveCart s items).1 == 0) = true) := by
    rw [h1, beq_eq_false_iff_ne.mpr hnz]
    exact Bool.false_ne_true
  have hcreate : create_order_and_intent s uid items onum intentId ship billing notes
      = ((resolveCart s items).2.2.elim
          (CreateResp.success (nextOrderId s) onum (resolveCart s items).1)
          CreateResp.itemError,
         insertPayment
           ((resolveCart s items).2.1.foldl (insertOrderItem (nextOrderId s))
             (insertOrder s (mkOrder (nextOrderId s) uid onum (resolveCart s items).1 ship
               (billing.getD ship) notes)))
           (nextOrderId s) intentId (resolveCart s items).1) := by
    simp only [create_order_and_intent]
    rw [if_neg hcnot]
  refine ⟨?_, ?_, ?_⟩
  · rw [show (create_order_and_intent s uid items onum intentId ship billing notes).1
        = (resolveCart s items).2.2.elim
            (CreateResp.success (nextOrderId s) onum (resolveCart s items).1)
            CreateResp.itemError from by rw [hcreate]]
    rw [h2, h1]
    rfl
  · have h2nd : (create_order_and_intent s uid items onum intentId ship billing notes).2
        = insertPayment
            ((resolveCart s items).2.1.foldl (insertOrderItem (nextOrderId s))
              (insertOrder s (mkOrder (nextOrderId s) uid onum (resolveCart s items).1 ship
                (billing.getD ship) notes)))
            (nextOrderId s) intentId (resolveCart s items).1 := by
      rw [hcreate]
    have horders :
        (insertPayment
          ((resolveCart s items).2.1.foldl (insertOrderItem (nextOrderId s))
            (insertOrder s (mkOrder (nextOrderId s) uid onum (resolveCart s items).1 ship
              (billing.getD ship) notes)))
          (nextOrderId s) intentId (resolveCart s items).1).orders
        = s.orders ++ [mkOrder (nextOrderId s) uid onum (resolveCart s items).1 ship
            (billing.getD ship) notes] := by
      show ((resolveCart s items).2.1.foldl (insertOrderItem (nextOrderId s))
          (insertOrder s (mkOrder (nextOrderId s) uid onum (resolveCart s items).1 ship
            (billing.getD ship) notes))).orders = _
      rw [foldl_insertOrderItem_orders]
      rfl
    rw [h2nd]
    unfold orderTotal findOrderById
    rw [horders, find?_append_none _ _ _ (orders_fresh_beq s)]
    have hself : ((mkOrder (nextOrderId s) uid onum (resolveCart s items).1 ship
        (billing.getD ship) notes).id == nextOrderId s) = true := beq_self_eq_true _
    simp [List.find?_cons, hself, mkOrder, h1]
  · intro f
    simp only [create_order_and_intent]
    rw [resolveCart_clientPrice]

/-- C1 witness: a one-product cart priced 599 with quantity 2 and a
client-supplied price field of 123, totalling 1198 from the catalog. -/
theorem create_total_from_catalog_witness :
    validCart w1s w1items ∧ specTotal w1s w1items ≠ 0 ∧
    (create_order_and_intent w1s 1 w1items "ORD-1" "pi_1" demoAddr none "").1
      = CreateResp.success (nextOrderId w1s) "ORD-1" (specTotal w1s w1items) ∧
    orderTotal (create_order_and_intent w1s 1 w1items "ORD-1" "pi_1" demoAddr none "").2
        (nextOrderId w1s)
      = some (specTotal w1s w1items) :=
  ⟨by decide, by decide,
    (create_total_from_catalog w1s 1 w1items "ORD-1" "pi_1" demoAddr none ""
      (by decide) (by decide)).1,
    (create_total_from_catalog w1s 1 w1items "ORD-1" "pi_1" demoAddr none ""
      (by decide) (by decide)).2.1⟩

end PetNation
